import Mathlib

/-!
Verification of the ticket lifecycle and access-control engine of the mmbot
repository (src/bot.py, src/database.py), as a shallow embedding in Lean 4.

The Discord/network transport is out of scope; tickets, the backing store and
the handlers' control flow are embedded as pure functions on an explicit
database state. Machine-level details (asyncpg, embeds, channel objects) are
treated as opaque; the claim-relevant logic (guard order, store updates,
exception handling) is translated line by line from the source.
-/

namespace MMBot

/-- The five middleman trust tiers, in the insertion order of `TIER_ROLES`
    and `TIER_HIERARCHY` in bot.py. -/
inductive Tier
  | trial
  | middleman
  | pro
  | head
  | owner
deriving DecidableEq, Repr

/-- bot.py `TIER_HIERARCHY`: numeric rank of each tier. -/
def TIER_HIERARCHY : Tier → Nat
  | .trial => 1
  | .middleman => 2
  | .pro => 3
  | .head => 4
  | .owner => 5

/-- The tiers in the iteration order of `TIER_ROLES.items()` in bot.py. -/
def TIERS : List Tier := [.trial, .middleman, .pro, .head, .owner]

/-- bot.py `get_member_tier`: the member's role set is abstracted as the
    predicate `holds` (does the member hold the trust role of that tier);
    the loop keeps the tier of greatest rank among held roles, or none. -/
def get_member_tier (holds : Tier → Bool) : Option Tier :=
  (TIERS.foldl
    (fun acc t =>
      if holds t then
        if TIER_HIERARCHY t > acc.2 then (some t, TIER_HIERARCHY t) else acc
      else acc)
    (none, 0)).1

/-- bot.py `can_access_tier`: member's highest tier must rank at least the
    ticket tier; a member with no recognized trust role is refused. -/
def can_access_tier (holds : Tier → Bool) (ticket_tier : Tier) : Bool :=
  match get_member_tier holds with
  | none => false
  | some member_tier =>
      decide (TIER_HIERARCHY member_tier ≥ TIER_HIERARCHY ticket_tier)

/-- bot.py `has_middleman_role`: any of the five trust roles (the role cache
    is a read optimization and is not modelled). -/
def has_middleman_role (holds : Tier → Bool) : Bool :=
  TIERS.any holds

/-- An acting member: id, trust roles held, and administrator permission
    (bot.py `is_admin` reads `guild_permissions.administrator`). -/
structure Actor where
  user_id : Nat
  holds : Tier → Bool
  admin : Bool

/-- bot.py `is_admin`. -/
def is_admin (a : Actor) : Bool := a.admin

/-- One row of the `middleman_tickets` table (the columns the engine reads
    and writes; timestamps are modelled as `Nat`). Initial status is the
    schema default `"open"` with `claimed_by` and `closed_at` NULL. -/
structure Ticket where
  ticket_id : Nat
  channel_id : Nat
  requester_id : Nat
  trader_username : String
  giving : String
  receiving : String
  tier : Tier
  claimed_by : Option Nat
  status : String
  closed_at : Option Nat
deriving DecidableEq, Repr

/-- The backing store: ticket rows, confirmation rows
    (ticket_id, ticket_type, user_id), and the id sequence. -/
structure DbState where
  tickets : List Ticket
  confirmations : List (Nat × String × Nat)
  next_ticket_id : Nat
deriving DecidableEq, Repr

/-- database.py `Database.get_mm_ticket_by_channel` (success path):
    SELECT * FROM middleman_tickets WHERE channel_id = $1, first row or None. -/
def get_mm_ticket_by_channel (db : DbState) (channel_id : Nat) : Option Ticket :=
  db.tickets.find? (fun t => t.channel_id == channel_id)

/-- database.py `Database.create_mm_ticket`: INSERT a fresh open row,
    RETURNING ticket_id (the id sequence is the store's). -/
def create_mm_ticket (db : DbState) (channel_id requester_id : Nat)
    (trader_username giving receiving : String) (tier : Tier) : Nat × DbState :=
  let tid := db.next_ticket_id
  (tid,
   { db with
      next_ticket_id := tid + 1,
      tickets := db.tickets ++
        [{ ticket_id := tid, channel_id := channel_id,
           requester_id := requester_id, trader_username := trader_username,
           giving := giving, receiving := receiving, tier := tier,
           claimed_by := none, status := "open", closed_at := none }] })

/-- database.py `Database.claim_mm_ticket`:
    UPDATE middleman_tickets SET claimed_by = $1 WHERE channel_id = $2 —
    an unconditional write on every matching row. -/
def claim_mm_ticket (db : DbState) (channel_id user_id : Nat) : DbState :=
  { db with
      tickets := db.tickets.map
        (fun t => if t.channel_id == channel_id
                  then { t with claimed_by := some user_id } else t) }

/-- database.py `Database.unclaim_mm_ticket`:
    UPDATE middleman_tickets SET claimed_by = NULL WHERE channel_id = $1. -/
def unclaim_mm_ticket (db : DbState) (channel_id : Nat) : DbState :=
  { db with
      tickets := db.tickets.map
        (fun t => if t.channel_id == channel_id
                  then { t with claimed_by := none } else t) }

/-- database.py `Database.close_mm_ticket`:
    UPDATE middleman_tickets SET status = 'closed', closed_at = NOW()
    WHERE channel_id = $1 — NOW() is the `now` argument, written
    unconditionally on every matching row, claimed or closed or not. -/
def close_mm_ticket (db : DbState) (channel_id now : Nat) : DbState :=
  { db with
      tickets := db.tickets.map
        (fun t => if t.channel_id == channel_id
                  then { t with status := "closed", closed_at := some now }
                  else t) }

/-- database.py `Database.add_confirmation`:
    INSERT INTO ticket_confirmations ... ON CONFLICT
    (ticket_id, ticket_type, user_id) DO NOTHING. -/
def add_confirmation (db : DbState) (ticket_id : Nat) (ticket_type : String)
    (user_id : Nat) : DbState :=
  if (ticket_id, ticket_type, user_id) ∈ db.confirmations then db
  else { db with confirmations := db.confirmations ++ [(ticket_id, ticket_type, user_id)] }

/-- Modelled from the spec: the SQL function `check_duplicate_mm_ticket`
    invoked by database.py `Database.check_duplicate_mm_ticket` is defined in
    the external database schema and is not part of this repository. Spec
    §4.2: it reports whether any record has status=open, the same requester,
    the same counterparty identifier by exact case-sensitive string equality,
    and the same tier. -/
def check_duplicate_mm_ticket (db : DbState) (requester_id : Nat)
    (trader_username : String) (tier : Tier) : Bool :=
  db.tickets.any (fun t =>
    t.status == "open" && t.requester_id == requester_id &&
    t.trader_username == trader_username && decide (t.tier = tier))

/-- Outcome reported to the actor by the claim handlers. -/
inductive ClaimResult
  | notFound
  | notMiddleman
  | tierForbidden
  | alreadyClaimed (claimer : Nat)
  | claimed
deriving DecidableEq, Repr

/-- bot.py `claim_slash` (and, with identical guard order and store calls,
    `TicketActionsView.claim_button`): look the ticket up by channel, refuse
    non-middlemen, refuse insufficient tier, report an existing claimant,
    otherwise write the claimant. The mm table stands for both tables; the
    pvp path is the same code on the other table. -/
def claim_slash (db : DbState) (channel_id : Nat) (actor : Actor) :
    ClaimResult × DbState :=
  match get_mm_ticket_by_channel db channel_id with
  | none => (.notFound, db)
  | some ticket =>
    if !has_middleman_role actor.holds then (.notMiddleman, db)
    else if !can_access_tier actor.holds ticket.tier then (.tierForbidden, db)
    else
      match ticket.claimed_by with
      | some c => (.alreadyClaimed c, db)
      | none => (.claimed, claim_mm_ticket db channel_id actor.user_id)

/-- Outcome reported to the actor by bot.py `unclaim_slash`. -/
inductive UnclaimResult
  | notFound
  | notClaimed
  | forbidden
  | unclaimed
deriving DecidableEq, Repr

/-- bot.py `unclaim_slash`: refuse outside ticket channels, refuse if the
    ticket is not claimed, refuse unless the actor is the claimant or an
    admin, otherwise clear the claimant. -/
def unclaim_slash (db : DbState) (channel_id : Nat) (actor : Actor) :
    UnclaimResult × DbState :=
  match get_mm_ticket_by_channel db channel_id with
  | none => (.notFound, db)
  | some ticket =>
    match ticket.claimed_by with
    | none => (.notClaimed, db)
    | some c =>
      if c ≠ actor.user_id && !is_admin actor then (.forbidden, db)
      else (.unclaimed, unclaim_mm_ticket db channel_id)

/-- Outcome of submitting the MM request modal. -/
inductive CreateResult
  | duplicateExists
  | created (ticket_id : Nat)
deriving DecidableEq, Repr

/-- bot.py `MMDetailsModal.on_submit`, ticket-store side: the duplicate check
    runs first and on a hit the handler returns without creating anything;
    otherwise the channel is provisioned externally (its id is the
    `channel_id` argument) and the row is inserted. -/
def on_submit (db : DbState) (requester_id channel_id : Nat)
    (trader giving receiving : String) (tier : Tier) : CreateResult × DbState :=
  if check_duplicate_mm_ticket db requester_id trader tier then
    (.duplicateExists, db)
  else
    let r := create_mm_ticket db channel_id requester_id trader giving receiving tier
    (.created r.1, r.2)

/-- bot.py `ConfirmationView`: per-panel in-memory state. `confirmations`
    models the Python set `self.confirmations` (the guard below keeps the
    list duplicate-free, so length is the set's size). -/
structure ConfirmationView where
  ticket_id : Nat
  ticket_type : String
  confirmations : List Nat
deriving DecidableEq, Repr

/-- bot.py `ConfirmationView.__init__`: a fresh panel starts with an empty
    confirmation set. -/
def ConfirmationView.new (ticket_id : Nat) (ticket_type : String) :
    ConfirmationView :=
  { ticket_id := ticket_id, ticket_type := ticket_type, confirmations := [] }

/-- What a press of the confirm button does from the presser's point of
    view: rejected as a duplicate, or accepted with the resulting count and
    whether the "Both users confirmed" notification was sent. -/
inductive ConfirmOutcome
  | alreadyConfirmed
  | confirmed (count : Nat) (quorumFired : Bool)
deriving DecidableEq, Repr

/-- bot.py `ConfirmationView.confirm_button`: a repeat presser is turned
    away before any state change; otherwise the presser is added to the
    panel set, persisted via `add_confirmation`, the count is the panel
    set's size, and the quorum notification is sent whenever count >= 2. -/
def confirm_button (view : ConfirmationView) (db : DbState) (user_id : Nat) :
    ConfirmationView × DbState × ConfirmOutcome :=
  if user_id ∈ view.confirmations then (view, db, .alreadyConfirmed)
  else
    let view2 := { view with confirmations := view.confirmations ++ [user_id] }
    let db2 := add_confirmation db view.ticket_id view.ticket_type user_id
    let count := view2.confirmations.length
    (view2, db2, .confirmed count (decide (count ≥ 2)))

/-- bot.py `confirm_slash`: in a ticket channel, only an admin or the
    claimant may start a confirmation; a new `ConfirmationView` is
    constructed on every invocation. -/
def confirm_slash (db : DbState) (channel_id : Nat) (actor : Actor) :
    Option ConfirmationView :=
  match get_mm_ticket_by_channel db channel_id with
  | none => none
  | some ticket =>
    if !(is_admin actor || decide (ticket.claimed_by = some actor.user_id)) then
      none
    else some (ConfirmationView.new ticket.ticket_id "mm")

/-- The one storage failure class relevant here: the asyncpg pool raising
    on connect/acquire/execute. -/
inductive DbError
  | storageUnavailable
deriving DecidableEq, Repr

/-- `Database.get_mm_ticket_by_channel` including its try/except: any
    storage exception is caught, logged and turned into the return value
    None. `conn` is whether the backing store is reachable for this call. -/
def get_mm_ticket_by_channel_run (conn : Bool) (db : DbState)
    (channel_id : Nat) : Option Ticket :=
  if conn then get_mm_ticket_by_channel db channel_id else none

/-- `Database.claim_mm_ticket` has no exception handler: a storage failure
    propagates to the caller; on success the UPDATE matches zero or more
    rows and never raises for a missing channel id. -/
def claim_mm_ticket_run (conn : Bool) (db : DbState) (channel_id user_id : Nat) :
    Except DbError DbState :=
  if conn then .ok (claim_mm_ticket db channel_id user_id) else .error .storageUnavailable

/-- Progress of one in-flight claim handler. The handler awaits the ticket
    read, then (synchronously deciding on that snapshot) awaits the
    claimant write; the await between read and write is where another
    handler for the same ticket may be scheduled. -/
inductive Phase
  | start
  | readTicket (snapshot : Option Ticket)
  | done (result : ClaimResult)
deriving DecidableEq, Repr

/-- One scheduler step of a claim handler against channel `channel_id`:
    from `start` it performs the store read; from `readTicket` it runs the
    guards on the snapshot and, if the snapshot shows no claimant, issues
    the unconditional UPDATE against the *current* store state — exactly
    the read-then-write of `claim_button`/`claim_slash`, which hold no
    per-ticket lock across the two calls. -/
def claimStep (channel_id : Nat) (db : DbState) (actor : Actor) :
    Phase → DbState × Phase
  | .start => (db, .readTicket (get_mm_ticket_by_channel db channel_id))
  | .readTicket none => (db, .done .notFound)
  | .readTicket (some ticket) =>
      if !has_middleman_role actor.holds then (db, .done .notMiddleman)
      else if !can_access_tier actor.holds ticket.tier then (db, .done .tierForbidden)
      else
        match ticket.claimed_by with
        | some c => (db, .done (.alreadyClaimed c))
        | none => (claim_mm_ticket db channel_id actor.user_id, .done .claimed)
  | .done r => (db, .done r)

/-- Run a schedule (a list of handler indices) of interleaved claim calls:
    each entry advances that handler by one `claimStep`. -/
def runSchedule (channel_id : Nat) (actors : List Actor) :
    List Nat → DbState → List Phase → DbState × List Phase
  | [], db, phases => (db, phases)
  | i :: rest, db, phases =>
    match actors[i]?, phases[i]? with
    | some a, some p =>
        let s := claimStep channel_id db a p
        runSchedule channel_id actors rest s.1 (phases.set i s.2)
    | _, _ => runSchedule channel_id actors rest db phases

end MMBot

namespace MMBot

/-- An open unclaimed mm ticket, as in the spec's end-to-end scenario. -/
def ticket0 : Ticket :=
  { ticket_id := 1, channel_id := 100, requester_id := 42,
    trader_username := "9cv", giving := "Frost Dragon", receiving := "4k Robux",
    tier := .middleman, claimed_by := none, status := "open", closed_at := none }

/-- A store holding exactly `ticket0`. -/
def db0 : DbState := { tickets := [ticket0], confirmations := [], next_ticket_id := 2 }

/-- A middleman of every tier, user id 7. -/
def actorA : Actor := { user_id := 7, holds := fun _ => true, admin := false }

/-- A middleman of every tier, user id 8. -/
def actorB : Actor := { user_id := 8, holds := fun _ => true, admin := false }

/-- `ticket0` already claimed by actor 7. -/
def ticketClaimed : Ticket := { ticket0 with claimed_by := some 7 }

/-- A store holding exactly `ticketClaimed`. -/
def dbClaimed : DbState :=
  { tickets := [ticketClaimed], confirmations := [], next_ticket_id := 2 }

/-- `ticket0` closed and unclaimed. -/
def ticketClosed : Ticket := { ticket0 with status := "closed", closed_at := some 5 }

/-- A store holding exactly `ticketClosed`. -/
def dbClosed : DbState :=
  { tickets := [ticketClosed], confirmations := [], next_ticket_id := 2 }

/-- Updating only the rows of one channel commutes with looking that
    channel up, provided the update keeps the channel id. -/
theorem find_channel_map_update (l : List Ticket) (ch : Nat) (f : Ticket → Ticket)
    (hf : ∀ t, (f t).channel_id = t.channel_id) :
    (l.map (fun t => if t.channel_id == ch then f t else t)).find?
        (fun t => t.channel_id == ch)
      = (l.find? (fun t => t.channel_id == ch)).map f := by
  induction l with
  | nil => rfl
  | cons hd tl ih =>
    rw [List.map_cons]
    cases hc : (hd.channel_id == ch) with
    | true =>
      rw [if_pos rfl]
      have h1 : ((f hd).channel_id == ch) = true := by rw [hf]; exact hc
      rw [@List.find?_cons_of_pos Ticket (fun t => t.channel_id == ch) (f hd) _ h1,
        @List.find?_cons_of_pos Ticket (fun t => t.channel_id == ch) hd _ hc]
      rfl
    | false =>
      rw [if_neg (by simp)]
      rw [@List.find?_cons_of_neg Ticket (fun t => t.channel_id == ch) hd _ (by simp [hc]),
        @List.find?_cons_of_neg Ticket (fun t => t.channel_id == ch) hd _ (by simp [hc])]
      exact ih

/-- A per-channel UPDATE matching no row leaves the table unchanged. -/
theorem map_update_of_find_none (l : List Ticket) (ch : Nat) (f : Ticket → Ticket)
    (h : l.find? (fun t => t.channel_id == ch) = none) :
    l.map (fun t => if t.channel_id == ch then f t else t) = l := by
  induction l with
  | nil => rfl
  | cons hd tl ih =>
    cases hc : (hd.channel_id == ch) with
    | true =>
      rw [@List.find?_cons_of_pos Ticket (fun t => t.channel_id == ch) hd _ hc] at h
      simp at h
    | false =>
      rw [@List.find?_cons_of_neg Ticket (fun t => t.channel_id == ch) hd _ (by simp [hc])] at h
      rw [List.map_cons, if_neg (by simpa using hc), ih h]

/-- Looking a channel up after `claim_mm_ticket` on that channel. -/
theorem get_after_claim (db : DbState) (ch uid : Nat) :
    get_mm_ticket_by_channel (claim_mm_ticket db ch uid) ch
      = (get_mm_ticket_by_channel db ch).map
          (fun t => { t with claimed_by := some uid }) :=
  find_channel_map_update db.tickets ch _ (fun _ => rfl)

/-- Looking a channel up after `unclaim_mm_ticket` on that channel. -/
theorem get_after_unclaim (db : DbState) (ch : Nat) :
    get_mm_ticket_by_channel (unclaim_mm_ticket db ch) ch
      = (get_mm_ticket_by_channel db ch).map
          (fun t => { t with claimed_by := none }) :=
  find_channel_map_update db.tickets ch _ (fun _ => rfl)

/-- Looking a channel up after `close_mm_ticket` on that channel. -/
theorem get_after_close (db : DbState) (ch now : Nat) :
    get_mm_ticket_by_channel (close_mm_ticket db ch now) ch
      = (get_mm_ticket_by_channel db ch).map
          (fun t => { t with status := "closed", closed_at := some now }) :=
  find_channel_map_update db.tickets ch _ (fun _ => rfl)

/-- C1: refuted on the code — the claim handlers issue the claimant read and
    the conditional claimant write as two separate awaited store calls with
    no per-ticket critical section, so the schedule read(7), read(8),
    write(7), write(8) against the single unclaimed `ticket0` makes *both*
    handlers return Claimed (the later writer 8 ends up as claimant), while
    a serialized schedule yields the claimed/already-claimed split the spec
    describes. -/
theorem claim_race_two_claimed :
    (runSchedule 100 [actorA, actorB] [0, 1, 0, 1] db0 [.start, .start]).2
      = [.done .claimed, .done .claimed]
  ∧ get_mm_ticket_by_channel
      (runSchedule 100 [actorA, actorB] [0, 1, 0, 1] db0 [.start, .start]).1 100
      = some { ticket0 with claimed_by := some 8 }
  ∧ (runSchedule 100 [actorA, actorB] [0, 0, 1, 1] db0 [.start, .start]).2
      = [.done .claimed, .done (.alreadyClaimed 7)] := by
  refine ⟨by decide, by decide, by decide⟩

/-- C2: a claim succeeds only from `claimed_by = NULL`; on a ticket whose
    claimant is already set, the handler answers AlreadyClaimed naming that
    claimant (whatever actor asks, in particular a different one) and leaves
    the store untouched. -/
theorem claim_only_when_unclaimed (db : DbState) (ch : Nat) (actor : Actor)
    (ticket : Ticket) (h : get_mm_ticket_by_channel db ch = some ticket) :
    ((claim_slash db ch actor).1 = .claimed → ticket.claimed_by = none)
  ∧ (∀ c, ticket.claimed_by = some c → (claim_slash db ch actor).2 = db)
  ∧ (∀ c, ticket.claimed_by = some c →
      has_middleman_role actor.holds = true →
      can_access_tier actor.holds ticket.tier = true →
      (claim_slash db ch actor).1 = .alreadyClaimed c) := by
  unfold claim_slash
  rw [h]
  cases hcb : ticket.claimed_by with
  | none =>
    exact ⟨fun _ => rfl, fun c hc => Option.noConfusion hc,
      fun c hc => Option.noConfusion hc⟩
  | some c0 =>
    cases hm : has_middleman_role actor.holds with
    | false => simp [hcb, hm]
    | true =>
      cases hca : can_access_tier actor.holds ticket.tier with
      | false => simp [hcb, hm, hca]
      | true => simp [hcb, hm, hca]

/-- Witness for C2 at a concrete input: `ticket0` claimed by 7, actor 8. -/
theorem claim_only_when_unclaimed_witness :
    (claim_slash dbClaimed 100 actorB).1 = ClaimResult.alreadyClaimed 7 :=
  (claim_only_when_unclaimed dbClaimed 100 actorB ticketClaimed (by decide)).2.2
    7 rfl (by decide) (by decide)

/-- C3, counterexample: closing `ticket0`'s channel at time 5 and again at
    time 9 leaves `closed_at = 9` — the second `close_mm_ticket` overwrites
    the closure timestamp (SET closed_at = NOW() runs unconditionally), so
    the timestamp is *not* unchanged from the first call. -/
theorem close_twice_changes_timestamp :
    (get_mm_ticket_by_channel (close_mm_ticket db0 100 5) 100).map
        Ticket.closed_at = some (some 5)
  ∧ (get_mm_ticket_by_channel
        (close_mm_ticket (close_mm_ticket db0 100 5) 100 9) 100).map
        Ticket.closed_at = some (some 9) := by
  refine ⟨by decide, by decide⟩

/-- C3, amended: closing twice is a no-op on status — still "closed" and no
    error — but the row carries the *second* call's timestamp: the double
    close equals a single close at the later time. -/
theorem close_idempotent_status_timestamp_overwritten
    (db : DbState) (ch t1 t2 : Nat) :
    get_mm_ticket_by_channel (close_mm_ticket (close_mm_ticket db ch t1) ch t2) ch
      = (get_mm_ticket_by_channel db ch).map
          (fun t => { t with status := "closed", closed_at := some t2 }) := by
  rw [get_after_close, get_after_close, Option.map_map]
  rfl

/-- C10: `unclaim_slash` rejects an unclaimed ticket, rejects any actor who
    is neither the claimant nor an admin (leaving the store untouched), and
    succeeds exactly when the ticket is claimed and the actor is the
    claimant or an admin, in which case the claimant is cleared. -/
theorem unclaim_authorization (db : DbState) (ch : Nat) (actor : Actor)
    (ticket : Ticket) (h : get_mm_ticket_by_channel db ch = some ticket) :
    (ticket.claimed_by = none → unclaim_slash db ch actor = (.notClaimed, db))
  ∧ (∀ c, ticket.claimed_by = some c → c ≠ actor.user_id → actor.admin = false →
      unclaim_slash db ch actor = (.forbidden, db))
  ∧ ((unclaim_slash db ch actor).1 = .unclaimed →
      ∃ c, ticket.claimed_by = some c ∧ (c = actor.user_id ∨ actor.admin = true))
  ∧ (∀ c, ticket.claimed_by = some c → (c = actor.user_id ∨ actor.admin = true) →
      (unclaim_slash db ch actor).1 = .unclaimed ∧
      get_mm_ticket_by_channel (unclaim_slash db ch actor).2 ch
        = some { ticket with claimed_by := none }) := by
  unfold unclaim_slash
  rw [h]
  cases hcb : ticket.claimed_by with
  | none =>
    refine ⟨fun _ => by simp [hcb], fun c hc => Option.noConfusion hc, fun hu => ?_,
      fun c hc => Option.noConfusion hc⟩
    simp [hcb] at hu
  | some c0 =>
    by_cases hne : c0 = actor.user_id
    · simp [hcb, hne, is_admin, get_after_unclaim, h]
    · cases hadm : actor.admin with
      | true => simp [hcb, hne, is_admin, hadm, get_after_unclaim, h]
      | false => simp [hcb, hne, is_admin, hadm, get_after_unclaim, h]

/-- Witness for C10: actor 7 unclaims the ticket they claimed. -/
theorem unclaim_authorization_witness :
    (unclaim_slash dbClaimed 100 actorA).1 = UnclaimResult.unclaimed ∧
    get_mm_ticket_by_channel (unclaim_slash dbClaimed 100 actorA).2 100
      = some { ticketClaimed with claimed_by := none } :=
  (unclaim_authorization dbClaimed 100 actorA ticketClaimed (by decide)).2.2.2
    7 rfl (Or.inl rfl)

/-- C4: on one confirmation panel, confirming is idempotent per actor and
    quorum fires exactly once: A's second press is rejected with the panel
    count still 1; A then B yields counts 1 then 2 with the quorum
    notification fired on (and only on) B's press; a late duplicate press
    by A after quorum is rejected and neither increases the count nor
    re-fires the notification. -/
theorem confirm_idempotent_quorum_once (tid : Nat) (tt : String)
    (db1 db2 db3 : DbState) (A B : Nat) (hAB : A ≠ B) :
    (confirm_button (ConfirmationView.new tid tt) db1 A).2.2
      = .confirmed 1 false
  ∧ (confirm_button (confirm_button (ConfirmationView.new tid tt) db1 A).1
        db2 A).2.2 = .alreadyConfirmed
  ∧ ((confirm_button (confirm_button (ConfirmationView.new tid tt) db1 A).1
        db2 A).1).confirmations.length = 1
  ∧ (confirm_button (confirm_button (ConfirmationView.new tid tt) db1 A).1
        db2 B).2.2 = .confirmed 2 true
  ∧ (confirm_button (confirm_button
        (confirm_button (ConfirmationView.new tid tt) db1 A).1 db2 B).1
        db3 A).2.2 = .alreadyConfirmed
  ∧ ((confirm_button (confirm_button
        (confirm_button (ConfirmationView.new tid tt) db1 A).1 db2 B).1
        db3 A).1).confirmations.length = 2 := by
  simp [confirm_button, ConfirmationView.new, hAB, Ne.symm hAB]

/-- Witness for C4: actors 42 and 8 on a fresh panel for ticket 1. -/
theorem confirm_idempotent_quorum_once_witness :
    (confirm_button (ConfirmationView.new 1 "mm") db0 42).2.2
      = ConfirmOutcome.confirmed 1 false :=
  (confirm_idempotent_quorum_once 1 "mm" db0 db0 db0 42 8 (by decide)).1

/-- A store that already holds a persisted confirmation for ticket 1 by
    actor 42 (say from an earlier panel) besides the claimed ticket. -/
def dbPersisted : DbState :=
  { tickets := [ticketClaimed], confirmations := [(1, "mm", 42)],
    next_ticket_id := 2 }

/-- C5: confirmation counting is scoped to the panel instance, not the
    ticket: every panel handed out by `confirm_slash` starts with an empty
    in-memory confirmation set, so on a second panel for the same ticket two
    distinct actors are counted 1 and 2 again and the quorum notification
    fires again, regardless of confirmations already persisted in the store
    for that ticket. -/
theorem confirmation_scoped_to_panel (db : DbState) (ch : Nat) (actor : Actor)
    (v : ConfirmationView) (hv : confirm_slash db ch actor = some v)
    (A B : Nat) (hAB : A ≠ B)
    (_hpersisted : (v.ticket_id, v.ticket_type, A) ∈ db.confirmations) :
    v.confirmations = []
  ∧ (confirm_button v db A).2.2 = .confirmed 1 false
  ∧ (confirm_button (confirm_button v db A).1
        (confirm_button v db A).2.1 B).2.2 = .confirmed 2 true := by
  have hempty : v.confirmations = [] := by
    unfold confirm_slash at hv
    split at hv
    · exact Option.noConfusion hv
    · split at hv
      · exact Option.noConfusion hv
      · injection hv with hv2
        rw [← hv2]
        rfl
  refine ⟨hempty, ?_, ?_⟩
  · simp [confirm_button, hempty]
  · simp [confirm_button, hempty, Ne.symm hAB]

/-- Witness for C5: a store that already persists a confirmation for the
    ticket still yields a panel that counts from zero. -/
theorem confirmation_scoped_to_panel_witness :
    (ConfirmationView.new 1 "mm").confirmations = [] :=
  (confirmation_scoped_to_panel dbPersisted 100 actorA
    (ConfirmationView.new 1 "mm") (by decide) 42 8 (by decide) (by decide)).1

/-- The spec-modelled duplicate guard, characterized: a hit is exactly an
    open record of the same requester with the counterparty string equal as
    typed (case-sensitive) and the same tier. -/
theorem check_duplicate_spec (db : DbState) (u : Nat) (s : String) (tier : Tier) :
    check_duplicate_mm_ticket db u s tier = true ↔
      ∃ t ∈ db.tickets, t.status = "open" ∧ t.requester_id = u ∧
        t.trader_username = s ∧ t.tier = tier := by
  unfold check_duplicate_mm_ticket
  simp [List.any_eq_true, and_assoc]

/-- C6: with an open ticket for (U, X, T) in the store, a second create for
    (U, X, T) is rejected as DuplicateExists and the store is unchanged;
    a create for (U, X, T2) with T2 ≠ T passes the guard and creates a
    ticket (when T is the only tier among U's open X tickets); and the guard
    matches exactly the open records with the counterparty string equal as
    typed, case-sensitively. -/
theorem duplicate_suppression (db : DbState) (U : Nat) (X : String) (T : Tier)
    (hdup : ∃ t ∈ db.tickets, t.status = "open" ∧ t.requester_id = U ∧
        t.trader_username = X ∧ t.tier = T)
    (honly : ∀ t ∈ db.tickets, t.status = "open" → t.requester_id = U →
        t.trader_username = X → t.tier = T)
    (ch : Nat) (g r : String) :
    on_submit db U ch X g r T = (.duplicateExists, db)
  ∧ (∀ T2 : Tier, T2 ≠ T →
      (on_submit db U ch X g r T2).1 = .created db.next_ticket_id)
  ∧ (∀ (s : String) (T3 : Tier),
      check_duplicate_mm_ticket db U s T3 = true ↔
        ∃ t ∈ db.tickets, t.status = "open" ∧ t.requester_id = U ∧
          t.trader_username = s ∧ t.tier = T3) := by
  refine ⟨?_, ?_, fun s T3 => check_duplicate_spec db U s T3⟩
  · unfold on_submit
    rw [if_pos ((check_duplicate_spec db U X T).mpr hdup)]
  · intro T2 hT2
    have hfalse : check_duplicate_mm_ticket db U X T2 = false := by
      rw [Bool.eq_false_iff]
      intro hcontra
      rcases (check_duplicate_spec db U X T2).mp hcontra with
        ⟨t, htmem, hopen, hreq, htrader, htier⟩
      exact hT2 (htier ▸ honly t htmem hopen hreq htrader)
    simp [on_submit, hfalse, create_mm_ticket]

/-- Witness for C6: `db0` holds the open ticket (42, "9cv", middleman), so
    the same request again is refused with the store unchanged. -/
theorem duplicate_suppression_witness :
    on_submit db0 42 200 "9cv" "a" "b" Tier.middleman
      = (CreateResult.duplicateExists, db0) :=
  (duplicate_suppression db0 42 "9cv" Tier.middleman (by decide) (by decide)
    200 "a" "b").1

/-- C7, counterexample: `claim_slash` (like `claim_button`) never reads
    `status`, so on the closed, unclaimed `ticketClosed` an eligible
    middleman's claim is accepted and mutates the record — a state change
    on a closed ticket. -/
theorem claim_accepted_on_closed_ticket :
    (claim_slash dbClosed 100 actorA).1 = ClaimResult.claimed
  ∧ get_mm_ticket_by_channel (claim_slash dbClosed 100 actorA).2 100
      = some { ticketClosed with claimed_by := some 7 }
  ∧ (claim_slash dbClosed 100 actorA).2 ≠ dbClosed := by
  refine ⟨by decide, by decide, by decide⟩

/-- C7, amended: the part of the claim the code does enforce — status is
    never reversed. Claiming and unclaiming never write status, closing
    only ever writes "closed", and confirmations do not touch ticket rows,
    so a closed row stays closed under every store mutation (even though
    claim/unclaim/confirm/proof are still accepted on it). -/
theorem status_never_reopened :
    (∀ (db : DbState) (ch uid i : Nat),
        ((claim_mm_ticket db ch uid).tickets[i]?).map Ticket.status
          = (db.tickets[i]?).map Ticket.status)
  ∧ (∀ (db : DbState) (ch i : Nat),
        ((unclaim_mm_ticket db ch).tickets[i]?).map Ticket.status
          = (db.tickets[i]?).map Ticket.status)
  ∧ (∀ (db : DbState) (ch now i : Nat) (tk tk2 : Ticket),
        db.tickets[i]? = some tk →
        (close_mm_ticket db ch now).tickets[i]? = some tk2 →
        tk.status = "closed" → tk2.status = "closed")
  ∧ (∀ (db : DbState) (tid : Nat) (tt : String) (uid : Nat),
        (add_confirmation db tid tt uid).tickets = db.tickets) := by
  refine ⟨?_, ?_, ?_, ?_⟩
  · intro db ch uid i
    show ((db.tickets.map _)[i]?).map Ticket.status = _
    rw [List.getElem?_map, Option.map_map]
    congr 1
    funext t
    simp only [Function.comp]
    split <;> rfl
  · intro db ch i
    show ((db.tickets.map _)[i]?).map Ticket.status = _
    rw [List.getElem?_map, Option.map_map]
    congr 1
    funext t
    simp only [Function.comp]
    split <;> rfl
  · intro db ch now i tk tk2 h1 h2 h3
    rw [show (close_mm_ticket db ch now).tickets = db.tickets.map _ from rfl,
      List.getElem?_map, h1, Option.map_some'] at h2
    injection h2 with h2a
    rw [← h2a]
    by_cases hc : (tk.channel_id == ch) = true
    · simp [hc]
    · simp [hc, h3]
  · intro db tid tt uid
    unfold add_confirmation
    split <;> rfl

/-- Witness for C7's amended theorem: closing the already-closed
    `ticketClosed` again leaves its status "closed". -/
theorem status_never_reopened_witness :
    ({ ticketClosed with status := "closed", closed_at := some 9 } : Ticket).status
      = "closed" :=
  status_never_reopened.2.2.1 dbClosed 100 9 0 ticketClosed
    { ticketClosed with status := "closed", closed_at := some 9 }
    rfl (by decide) rfl

/-- C8, counterexample: a storage-connectivity failure inside
    `get_mm_ticket_by_channel` is caught and converted into the same `none`
    the caller gets for a missing channel id — it does not surface as any
    error — and an update referencing a nonexistent channel id silently
    matches zero rows instead of failing with a NotFoundError. -/
theorem storage_failure_swallowed :
    get_mm_ticket_by_channel_run false db0 100 = none
  ∧ get_mm_ticket_by_channel_run true db0 100 = some ticket0
  ∧ get_mm_ticket_by_channel_run true db0 999 = none
  ∧ claim_mm_ticket_run true db0 999 7 = Except.ok db0 := by
  refine ⟨rfl, by decide, by decide, rfl⟩

/-- C8, amended: the getters wrapped in try/except return the not-found
    default `none` on storage failure; operations without a handler (here
    the claimant update) propagate the storage error to the caller; and no
    operation fails for a missing channel id — the update is a silent
    no-op there. -/
theorem storage_failure_semantics (db : DbState) (ch uid : Nat) :
    get_mm_ticket_by_channel_run false db ch = none
  ∧ claim_mm_ticket_run false db ch uid
      = Except.error DbError.storageUnavailable
  ∧ (get_mm_ticket_by_channel db ch = none → claim_mm_ticket db ch uid = db) := by
  refine ⟨rfl, rfl, fun hnone => ?_⟩
  unfold claim_mm_ticket
  rw [map_update_of_find_none db.tickets ch _ hnone]

/-- Witness for C8's amended theorem: updating the claimant of the absent
    channel 999 leaves `db0` unchanged. -/
theorem storage_failure_semantics_witness :
    claim_mm_ticket db0 999 7 = db0 :=
  (storage_failure_semantics db0 999 7).2.2 (by decide)

/-- C9: `can_access_tier` (the code's meets check) holds exactly when the
    member's resolved tier ranks at least the required tier; the ranks are
    strictly increasing 1..5 over trial < middleman < pro < head < owner;
    a head-tier actor can access a middleman ticket, a trial-tier actor
    cannot access a pro ticket, and a member holding no recognized trust
    role can access no tier. -/
theorem tier_authorization :
    (∀ (holds : Tier → Bool) (r : Tier),
        can_access_tier holds r = true ↔
          ∃ mt : Tier, get_member_tier holds = some mt ∧
            TIER_HIERARCHY mt ≥ TIER_HIERARCHY r)
  ∧ TIER_HIERARCHY Tier.trial = 1 ∧ TIER_HIERARCHY Tier.middleman = 2
  ∧ TIER_HIERARCHY Tier.pro = 3 ∧ TIER_HIERARCHY Tier.head = 4
  ∧ TIER_HIERARCHY Tier.owner = 5
  ∧ can_access_tier (fun t => decide (t = Tier.head)) Tier.middleman = true
  ∧ can_access_tier (fun t => decide (t = Tier.trial)) Tier.pro = false
  ∧ (∀ r : Tier, can_access_tier (fun _ => false) r = false) := by
  refine ⟨?_, rfl, rfl, rfl, rfl, rfl, by decide, by decide, fun r => rfl⟩
  intro holds r
  unfold can_access_tier
  cases h : get_member_tier holds with
  | none => simp
  | some mt => simp

end MMBot
